import Mathlib

/-!
Verification development for the motion-detection and recording state machine of
`security_monitor.py` (class `SecurityMonitor`, its `_monitor_loop`, and the
module-level `start_security_monitoring` / `stop_security_monitoring` helpers).

The per-frame loop body (lines 118-192 of the source) is embedded as a pure
function `monitorCycle` over an explicit state `LoopState`; the image pipeline
(absdiff, binary threshold, 3x3 dilation iterated twice, external-contour
extraction, contour area, bounding rectangle) models the OpenCV primitives the
loop calls, on grayscale images represented as total functions `Nat → Nat → Nat`
restricted to a width/height given in the configuration.  Wall-clock times
(Python floats from `time.time()`) are modelled as rationals; Python float `%`
is modelled by `pyfmod`.  Machine-level side effects (writer creation, screenshot
writes, frame writes, notification sends) are recorded as an explicit event list.
-/

/-- A grayscale image: pixel value at column x, row y.  The loop only ever reads
pixels with x < w and y < h for the configured frame size; the source images are
the already-grayscale-and-Gaussian-blurred frames (`gray_frame` in the source),
since every claim quantifies over the smoothed frames. -/
abbrev GrayImage := Nat → Nat → Nat

/-- A pixel coordinate (x, y). -/
abbrev Cell := Nat × Nat

/-- Configuration of `SecurityMonitor.__init__`: frame size (from
`CAP_PROP_FRAME_WIDTH/HEIGHT`), `sensitivity`, `min_area`, `record_seconds`. -/
structure MonitorConfig where
  w : Nat
  h : Nat
  sensitivity : Nat
  min_area : Nat
  record_seconds : Nat

/-- cv2.absdiff on grayscale images: pointwise absolute difference. -/
def absdiff (a b : GrayImage) : GrayImage := fun x y => Nat.dist (a x y) (b x y)

/-- cv2.threshold(img, s, 255, THRESH_BINARY): 255 where the pixel strictly
exceeds s, else 0 (line 131 of the source). -/
def thresholdBinary (s : Nat) (img : GrayImage) : GrayImage :=
  fun x y => if s < img x y then 255 else 0

/-- In-bounds 3x3 neighbourhood of (x, y).  Truncated Nat subtraction at the
left/top border only duplicates border cells, which is harmless under max. -/
def nbhd (w h x y : Nat) : List Cell :=
  ([(x-1, y-1), (x, y-1), (x+1, y-1),
    (x-1, y),   (x, y),   (x+1, y),
    (x-1, y+1), (x, y+1), (x+1, y+1)] : List Cell).filter
    (fun p => decide (p.1 < w) && decide (p.2 < h))

/-- cv2.dilate(img, None): maximum over the in-bounds 3x3 neighbourhood
(the default 3x3 rectangular structuring element; the default border handling
contributes nothing outside the image). -/
def dilateOnce (w h : Nat) (img : GrayImage) : GrayImage :=
  fun x y => ((nbhd w h x y).map (fun p => img p.1 p.2)).foldr max 0

/-- cv2.dilate with iterations=2 (line 134 of the source). -/
def dilate2 (w h : Nat) (img : GrayImage) : GrayImage :=
  dilateOnce w h (dilateOnce w h img)

/-- All pixel coordinates of a w x h image in raster order (row-major, the order
in which OpenCV scans for contour start points). -/
def allCells (w h : Nat) : List Cell :=
  (List.range h).flatMap (fun y => (List.range w).map (fun x => (x, y)))

/-- Foreground cells of a binary image, in raster order (findContours treats
every nonzero pixel as foreground). -/
def fgCells (w h : Nat) (img : GrayImage) : List Cell :=
  (allCells w h).filter (fun p => decide (img p.1 p.2 ≠ 0))

/-- 8-adjacency of pixels, reflexively (Chebyshev distance at most 1); OpenCV
connects foreground pixels 8-directionally. -/
def adj8 (p q : Cell) : Bool :=
  decide (Nat.dist p.1 q.1 ≤ 1) && decide (Nat.dist p.2 q.2 ≤ 1)

/-- One closure step of a breadth-first component search: all listed cells that
touch the current set (adj8 is reflexive, so the set itself is kept). -/
def growSet (cells s : List Cell) : List Cell :=
  cells.filter (fun d => s.any (fun e => adj8 e d))

/-- Iterated closure steps. -/
def reachN : Nat → List Cell → List Cell → List Cell
  | 0, _, s => s
  | n+1, cells, s => reachN n cells (growSet cells s)

/-- The 8-connected component of c within cells (as a sublist of cells, so in
raster order); cells.length closure steps always suffice. -/
def reach (cells : List Cell) (c : Cell) : List Cell :=
  reachN cells.length cells [c]

/-- Partition a raster-ordered cell list into its 8-connected components; the
fuel is the cell count, which bounds the number of components. -/
def componentsAux : Nat → List Cell → List (List Cell)
  | 0, _ => []
  | _+1, [] => []
  | n+1, c :: rest =>
      let comp := reach (c :: rest) c
      comp :: componentsAux n (rest.filter (fun d => !(comp.any (fun e => decide (e = d)))))

/-- The 8-connected components of a raster-ordered cell list. -/
def components (cells : List Cell) : List (List Cell) :=
  componentsAux cells.length cells

/-- A point with integer coordinates, for boundary tracing (the traced boundary
of a component can probe coordinates one pixel outside the image). -/
abbrev ZPt := ℤ × ℤ

/-- The 8 pixel directions in clockwise order in image coordinates (y grows
downward), starting West: W, NW, N, NE, E, SE, S, SW. -/
def dirOff : Nat → ZPt
  | 0 => (-1, 0)
  | 1 => (-1, -1)
  | 2 => (0, -1)
  | 3 => (1, -1)
  | 4 => (1, 0)
  | 5 => (1, 1)
  | 6 => (0, 1)
  | _ => (-1, 1)

/-- Index of a unit direction vector in the dirOff ordering. -/
def dirIdx (v : ZPt) : Nat :=
  if v = (-1, 0) then 0
  else if v = (-1, -1) then 1
  else if v = (0, -1) then 2
  else if v = (1, -1) then 3
  else if v = (1, 0) then 4
  else if v = (1, 1) then 5
  else if v = (0, 1) then 6
  else 7

/-- Pointwise addition on integer points. -/
def zadd (p q : ZPt) : ZPt := (p.1 + q.1, p.2 + q.2)

/-- Pointwise subtraction on integer points. -/
def zsub (p q : ZPt) : ZPt := (p.1 - q.1, p.2 - q.2)

/-- Membership of an integer point in a Nat-coordinate cell list. -/
def memZ (comp : List Cell) (p : ZPt) : Bool :=
  comp.any (fun c => decide ((c.1 : ℤ) = p.1) && decide ((c.2 : ℤ) = p.2))

/-- One step of Moore-neighbour boundary tracing: from pixel p whose backtrack
neighbour lies in direction d0, scan the 8 neighbours clockwise starting just
past the backtrack; the first foreground neighbour is the next boundary pixel,
and the background cell scanned just before it is the next backtrack. -/
def traceStep (inC : ZPt → Bool) (p : ZPt) (d0 : Nat) : Option (ZPt × ZPt) :=
  (List.range 8).findSome? (fun i =>
    let q := zadd p (dirOff ((d0 + i + 1) % 8))
    if inC q then some (q, zadd p (dirOff ((d0 + i) % 8))) else none)

/-- Boundary tracing loop: collect boundary pixels until the trace re-enters the
start pixel with the starting backtrack, with fuel bounding the walk. -/
def traceAux (inC : ZPt → Bool) (s b0 : ZPt) :
    Nat → ZPt → ZPt → List ZPt → List ZPt
  | 0, _, _, acc => acc.reverse
  | fuel+1, p, b, acc =>
      match traceStep inC p (dirIdx (zsub b p)) with
      | none => acc.reverse
      | some (q, b') =>
          if q = s ∧ b' = b0 then acc.reverse
          else traceAux inC s b0 fuel q b' (q :: acc)

/-- The outer boundary contour of an 8-connected component, modelling the
contour cv2.findContours(..., RETR_EXTERNAL, ...) returns for it: the trace
starts at the raster-first pixel of the component (whose west neighbour is
background) with the backtrack pointing West.  An isolated pixel yields the
one-point contour. -/
def traceBoundary (comp : List Cell) : List ZPt :=
  match comp with
  | [] => []
  | c :: _ =>
      let s : ZPt := ((c.1 : ℤ), (c.2 : ℤ))
      let b0 := zadd s (-1, 0)
      traceAux (memZ comp) s b0 (8 * comp.length + 8) s b0 [s]

/-- cv2.findContours(img, RETR_EXTERNAL, CHAIN_APPROX_SIMPLE) (line 135):
one outer contour per 8-connected foreground component (chain approximation
drops collinear points, which changes neither contour area nor the bounding
rectangle, so the full boundary point list is kept). -/
def findContoursExt (w h : Nat) (img : GrayImage) : List (List ZPt) :=
  (components (fgCells w h img)).map traceBoundary

/-- Twice the cross product of two points, one shoelace term. -/
def cross2 (a b : ZPt) : ℤ := a.1 * b.2 - b.1 * a.2

/-- Shoelace sum of a closed polygon: consecutive terms plus the wrap-around
term back to p0. -/
def shoelaceAux (p0 : ZPt) : List ZPt → ℤ
  | [] => 0
  | [q] => cross2 q p0
  | q :: r :: rest => cross2 q r + shoelaceAux p0 (r :: rest)

/-- Twice cv2.contourArea of a contour: the absolute shoelace sum of the
boundary polygon through pixel centres.  Kept doubled to stay in Nat; the
source comparison contourArea < min_area is exactly
contourAreaD < 2 * min_area since both are integers. -/
def contourAreaD (c : List ZPt) : Nat :=
  match c with
  | [] => 0
  | p :: _ => (shoelaceAux p c).natAbs

/-- Minimum of a list of integers (0 for the empty list, never used there). -/
def zmin : List ℤ → ℤ
  | [] => 0
  | x :: xs => xs.foldl min x

/-- Maximum of a list of integers (0 for the empty list, never used there). -/
def zmax : List ℤ → ℤ
  | [] => 0
  | x :: xs => xs.foldl max x

/-- A bounding rectangle as returned by cv2.boundingRect: top-left corner plus
width and height measured in pixels. -/
structure Rect where
  x : ℤ
  y : ℤ
  w : ℤ
  h : ℤ
deriving DecidableEq

/-- cv2.boundingRect of a contour (line 145 of the source). -/
def boundingRect (c : List ZPt) : Rect :=
  { x := zmin (c.map Prod.fst)
    y := zmin (c.map Prod.snd)
    w := zmax (c.map Prod.fst) - zmin (c.map Prod.fst) + 1
    h := zmax (c.map Prod.snd) - zmin (c.map Prod.snd) + 1 }

/-- Area of the bounding rectangle of a contour (what claim C9 says the filter
uses; the source filter actually uses the contour area). -/
def brArea (c : List ZPt) : ℤ := (boundingRect c).w * (boundingRect c).h

/-- The contour scan of lines 137-146 of the source: a fold over the contour
list carrying the motion_detected flag and the rectangles drawn so far; a
contour with contourArea < min_area is skipped, any other contour sets
motion_detected and contributes its bounding rectangle. -/
def scanContours (minArea : Nat) (cs : List (List ZPt)) : Bool × List Rect :=
  cs.foldl
    (fun acc c =>
      if contourAreaD c < 2 * minArea then acc
      else (true, acc.2 ++ [boundingRect c]))
    (false, [])

/-- The whole per-frame motion pipeline of lines 130-146: absolute difference
against the reference, binary threshold at sensitivity, dilation twice,
external contours, and the contour scan. -/
def motionScan (cfg : MonitorConfig) (ref fr : GrayImage) : Bool × List Rect :=
  scanContours cfg.min_area
    (findContoursExt cfg.w cfg.h
      (dilate2 cfg.w cfg.h
        (thresholdBinary cfg.sensitivity (absdiff ref fr))))

/-- Python float a % b for b > 0 (used at line 177, time.time() % 30):
a - b * floor(a / b). -/
def pyfmod (a b : ℚ) : ℚ := a - b * (⌊a / b⌋ : ℤ)

/-- The colour frame as it evolves inside one loop iteration: which bounding
rectangles cv2.rectangle has drawn on it (line 146), and whether the
cv2.putText timestamp overlay (line 181) has been applied yet. -/
structure CFrame where
  src : GrayImage
  rects : List Rect
  overlay : Bool

/-- Observable side effects of one loop iteration, in program order:
VideoWriter creation (line 152), cv2.imwrite of the screenshot (line 158),
the notification send (line 161), VideoWriter.write (line 167), and
VideoWriter.release (line 171). -/
inductive Event where
  | recordingStarted (t : ℚ)
  | screenshotSaved (f : CFrame) (t : ℚ)
  | alertSent (f : CFrame) (t : ℚ)
  | frameWritten (f : CFrame)
  | recordingFinalized

/-- The loop-local mutable state of _monitor_loop: the reference frame
gray_first_frame, the is_recording flag, and record_start_time (None until the
first session starts, and left stale after a session closes, as in the
source). -/
structure LoopState where
  gray_first_frame : GrayImage
  is_recording : Bool
  record_start_time : Option ℚ

/-- The state right after the loop prologue (lines 104-116): the reference is
the smoothed first frame, no recording is active, no start time exists. -/
def initState (firstFrame : GrayImage) : LoopState :=
  { gray_first_frame := firstFrame
    is_recording := false
    record_start_time := none }

/-- One iteration of the while loop of _monitor_loop (lines 118-192), for a
successfully read frame fr at wall-clock time now: run the motion pipeline;
if motion is detected while not recording, create the writer, save a
screenshot and send one notification (lines 149-163); if recording, write the
frame and close the writer once the elapsed time strictly exceeds
record_seconds (lines 166-174); refresh the reference frame when
now % 30 < 1 (lines 176-178); finally apply the timestamp overlay
(lines 180-182).  Returns the new state, the events of this iteration in
order, and the final (discarded) annotated frame. -/
def monitorCycle (cfg : MonitorConfig) (st : LoopState) (fr : GrayImage)
    (now : ℚ) : LoopState × List Event × CFrame :=
  let grayFrame := fr
  let scanned := motionScan cfg st.gray_first_frame grayFrame
  let frame1 : CFrame := { src := fr, rects := scanned.2, overlay := false }
  let trig :=
    if scanned.1 && !st.is_recording then
      ({ st with is_recording := true, record_start_time := some now },
       [Event.recordingStarted now, Event.screenshotSaved frame1 now,
        Event.alertSent frame1 now])
    else (st, ([] : List Event))
  let writ :=
    if trig.1.is_recording then
      match trig.1.record_start_time with
      | some t0 =>
          if (cfg.record_seconds : ℚ) < now - t0 then
            ({ trig.1 with is_recording := false },
             [Event.frameWritten frame1, Event.recordingFinalized])
          else (trig.1, [Event.frameWritten frame1])
      | none => (trig.1, [Event.frameWritten frame1])
    else (trig.1, ([] : List Event))
  let st4 :=
    if pyfmod now 30 < 1 then { writ.1 with gray_first_frame := grayFrame }
    else writ.1
  (st4, trig.2 ++ writ.2, { frame1 with overlay := true })

/-- Run the loop over a list of (frame, time) inputs, collecting all events. -/
def runCycles (cfg : MonitorConfig) (st : LoopState) :
    List (GrayImage × ℚ) → LoopState × List Event
  | [] => (st, [])
  | (fr, t) :: rest =>
      let step := monitorCycle cfg st fr t
      let tail := runCycles cfg step.1 rest
      (tail.1, step.2.1 ++ tail.2)

/-- The states the loop passes through on a list of inputs, the start state
included. -/
def statesTrace (cfg : MonitorConfig) (st : LoopState) :
    List (GrayImage × ℚ) → List LoopState
  | [] => [st]
  | (fr, t) :: rest => st :: statesTrace cfg (monitorCycle cfg st fr t).1 rest

/-- True when every frame of the run differs from the then-current reference
frame by at most the sensitivity on every in-bounds pixel (the hypothesis of
claim C4, threaded through the evolving reference). -/
def lowDiffRun (cfg : MonitorConfig) : LoopState → List (GrayImage × ℚ) → Prop
  | _, [] => True
  | st, (fr, t) :: rest =>
      (∀ x y, x < cfg.w → y < cfg.h →
        Nat.dist (st.gray_first_frame x y) (fr x y) ≤ cfg.sensitivity)
      ∧ lowDiffRun cfg (monitorCycle cfg st fr t).1 rest

/-- Event classifiers for counting. -/
def isStarted : Event → Bool
  | .recordingStarted _ => true
  | _ => false

/-- True exactly on recordingFinalized events. -/
def isFinalized : Event → Bool
  | .recordingFinalized => true
  | _ => false

/-- True exactly on screenshotSaved events. -/
def isScreenshot : Event → Bool
  | .screenshotSaved _ _ => true
  | _ => false

/-- True exactly on alertSent events. -/
def isAlert : Event → Bool
  | .alertSent _ _ => true
  | _ => false

/-- Control-surface state of a SecurityMonitor instance: the is_running flag
and whether a capture device is currently held open. -/
structure Ctl where
  is_running : Bool
  camera_open : Bool
deriving DecidableEq

/-- The two strings SecurityMonitor.start can return (lines 65-77). -/
inductive StartMsg where
  | alreadyRunning
  | started
deriving DecidableEq

/-- The possible results of the stop paths: SecurityMonitor.stop returns
either notRunning or stopped (lines 79-91); the module-level helper can also
answer wasNotStarted (line 313). -/
inductive StopMsg where
  | stopped
  | notRunning
  | wasNotStarted
deriving DecidableEq

namespace SecurityMonitor

/-- SecurityMonitor.start (lines 65-77): if already running, answer
alreadyRunning; otherwise set is_running, spawn the loop thread, and answer
started.  No device interaction happens here; the camera is opened later,
inside the loop thread. -/
def start (c : Ctl) : Ctl × StartMsg :=
  if c.is_running then (c, StartMsg.alreadyRunning)
  else ({ c with is_running := true }, StartMsg.started)

/-- SecurityMonitor.stop (lines 79-91): if not running, answer notRunning;
otherwise clear is_running, release the camera, and answer stopped. -/
def stop (c : Ctl) : Ctl × StopMsg :=
  if !c.is_running then (c, StopMsg.notRunning)
  else ({ is_running := false, camera_open := false }, StopMsg.stopped)

end SecurityMonitor

/-- The loop prologue of _monitor_loop (lines 96-101 plus the finally block):
cv2.VideoCapture is opened; if the device is unavailable the loop logs, clears
is_running, releases the camera, and returns before processing any frame.
The Bool result tells whether the loop proceeds to process frames. -/
def monitorLoopOpen (c : Ctl) (deviceAvailable : Bool) : Ctl × Bool :=
  if deviceAvailable then ({ c with camera_open := true }, true)
  else ({ c with is_running := false, camera_open := false }, false)

/-- Calling start and then letting the spawned loop thread run its prologue:
the message returned to the caller of start is computed before the device is
touched, so it never reflects device availability. -/
def startAndOpen (c : Ctl) (deviceAvailable : Bool) : StartMsg × Ctl × Bool :=
  let s := SecurityMonitor.start c
  match s.2 with
  | StartMsg.alreadyRunning => (s.2, s.1, false)
  | StartMsg.started =>
      let o := monitorLoopOpen s.1 deviceAvailable
      (s.2, o.1, o.2)

/-- start_security_monitoring (lines 276-295): build a fresh SecurityMonitor
from the parameters, call start on it, return its message.  The global
security_monitor_instance is never assigned, so the ambient global state is
returned unchanged alongside the freshly created (and now running) monitor. -/
def startSecurityMonitoring (g : Option Ctl) : Option Ctl × Ctl × StartMsg :=
  let fresh : Ctl := { is_running := false, camera_open := false }
  let s := SecurityMonitor.start fresh
  (g, s.1, s.2)

/-- stop_security_monitoring (lines 298-313): consult the global
security_monitor_instance; when it is None (or unset) answer wasNotStarted,
otherwise stop that instance, clear the global, and forward its message. -/
def stopSecurityMonitoring (g : Option Ctl) : Option Ctl × StopMsg :=
  match g with
  | none => (none, StopMsg.wasNotStarted)
  | some m => (none, (SecurityMonitor.stop m).2)

/-- The module-level initial value of security_monitor_instance (line 316). -/
def moduleInitGlobal : Option Ctl := none

/-! Concrete inputs used by witnesses and counterexamples. -/

/-- The all-black image. -/
def zeroImg : GrayImage := fun _ _ => 0

/-- The all-one image (used to tell reference frames apart). -/
def oneImg : GrayImage := fun _ _ => 1

/-- A single bright pixel in the middle of a 3x3 frame. -/
def spotImg : GrayImage := fun x y => if x = 1 ∧ y = 1 then 255 else 0

/-- A single bright pixel in the middle of a 5x5 frame. -/
def spot5Img : GrayImage := fun x y => if x = 2 ∧ y = 2 then 255 else 0

/-- Two bright pixels joined by a dimmer bridge on row 2 of an 11x5 frame:
at a low threshold the whole bar is one region, at a high threshold only the
two endpoints survive and dilation leaves them separate. -/
def dumbbellImg : GrayImage := fun x y =>
  if y = 2 ∧ (x = 2 ∨ x = 8) then 100
  else if y = 2 ∧ 3 ≤ x ∧ x ≤ 7 then 30 else 0

/-- A 3x3 monitor with a permissive area filter. -/
def cfg1 : MonitorConfig :=
  { w := 3, h := 3, sensitivity := 20, min_area := 1, record_seconds := 10 }

/-- A degenerate 0x0 monitor (no pixels, hence never any motion), used to
exercise the pure recording state machine. -/
def cfg0 : MonitorConfig :=
  { w := 0, h := 0, sensitivity := 20, min_area := 500, record_seconds := 10 }

/-- An 11x5 monitor at sensitivity s with the area filter disabled. -/
def cfgS (s : Nat) : MonitorConfig :=
  { w := 11, h := 5, sensitivity := s, min_area := 0, record_seconds := 10 }

/-- A 5x5 monitor whose min_area separates contour area (16) from
bounding-rectangle area (25). -/
def cfg9 : MonitorConfig :=
  { w := 5, h := 5, sensitivity := 20, min_area := 20, record_seconds := 10 }

/-- A state in the middle of a recording session that started at time 0. -/
def stRec : LoopState :=
  { gray_first_frame := zeroImg, is_recording := true, record_start_time := some 0 }

/-- C10: the module-level start helper never assigns the global
security_monitor_instance, so a following stop_security_monitoring call sees
the module-initial None, answers wasNotStarted, and leaves the freshly
created monitor running: start_security_monitoring leaves any ambient global
untouched, the monitor it created is running, and stop_security_monitoring
after it returns wasNotStarted without reaching that monitor. -/
theorem c10_stop_misses_started_monitor :
    (∀ g : Option Ctl, (startSecurityMonitoring g).1 = g) ∧
    (startSecurityMonitoring moduleInitGlobal).2.2 = StartMsg.started ∧
    (startSecurityMonitoring moduleInitGlobal).2.1.is_running = true ∧
    stopSecurityMonitoring (startSecurityMonitoring moduleInitGlobal).1
      = (none, StopMsg.wasNotStarted) := by
  refine ⟨fun g => rfl, rfl, rfl, rfl⟩

/-- C6 counterexample: with a fresh monitor and an unavailable capture device,
the caller of start still receives the started (success) message, while the
loop thread aborts before processing any frame; no failed-to-start result is
ever surfaced to the caller. -/
theorem c6_start_reports_success_counterexample :
    startAndOpen { is_running := false, camera_open := false } false
      = (StartMsg.started, { is_running := false, camera_open := false }, false) := by
  rfl

/-- C6 amended: when start is called on a non-running monitor it always
returns the started message, before the device is touched; if the device then
turns out to be unavailable, the loop thread resets is_running and exits
without processing frames, and this failure is only logged, never surfaced to
the caller of start. -/
theorem c6_device_failure_not_surfaced (c : Ctl) (h : c.is_running = false)
    (avail : Bool) :
    (startAndOpen c avail).1 = StartMsg.started ∧
    (avail = false →
      (startAndOpen c avail).2.1.is_running = false ∧
      (startAndOpen c avail).2.2 = false) := by
  simp [startAndOpen, SecurityMonitor.start, h, monitorLoopOpen]
  rintro rfl
  simp

/-- Witness for c6_device_failure_not_surfaced at a concrete non-running
monitor and unavailable device. -/
theorem c6_device_failure_not_surfaced_witness :
    (startAndOpen { is_running := false, camera_open := false } false).1
        = StartMsg.started ∧
      (startAndOpen { is_running := false, camera_open := false } false).2.1.is_running
        = false := by
  refine ⟨(c6_device_failure_not_surfaced
    { is_running := false, camera_open := false } rfl false).1, ?_⟩
  exact ((c6_device_failure_not_surfaced
    { is_running := false, camera_open := false } rfl false).2 rfl).1

/-- C8: on every cycle, the reference frame gray_first_frame is replaced by the
current smoothed frame exactly when pyfmod now 30 < 1 (the Python
time.time() % 30 < 1 test of line 177) and left unchanged otherwise,
whatever the recording state and whatever the motion pipeline produced. -/
theorem c8_reference_refresh (cfg : MonitorConfig) (st : LoopState)
    (fr : GrayImage) (now : ℚ) :
    (pyfmod now 30 < 1 → (monitorCycle cfg st fr now).1.gray_first_frame = fr) ∧
    (¬ pyfmod now 30 < 1 →
      (monitorCycle cfg st fr now).1.gray_first_frame = st.gray_first_frame) := by
  unfold monitorCycle
  constructor <;> intro h <;>
    · simp only [h, ite_true, ite_false, not_false_iff]
      repeat first | rfl | split

/-- Witness for c8_reference_refresh: at time 0 (0 % 30 = 0 < 1) the reference
is replaced by the incoming frame; at time 10 (10 % 30 = 10) it is kept. -/
theorem c8_reference_refresh_witness :
    (monitorCycle cfg0 (initState oneImg) zeroImg 0).1.gray_first_frame = zeroImg ∧
    (monitorCycle cfg0 (initState oneImg) zeroImg 10).1.gray_first_frame = oneImg := by
  constructor
  · exact (c8_reference_refresh cfg0 (initState oneImg) zeroImg 0).1
      (by norm_num [pyfmod])
  · exact (c8_reference_refresh cfg0 (initState oneImg) zeroImg 10).2
      (by norm_num [pyfmod])

/-- C1 counterexample: a recording session that started at time 0 with
record_seconds = 10, on a cycle at time 10, has elapsed time exactly equal to
record_seconds — yet the source comparison of line 170 is strict
(time.time() - record_start_time > record_seconds), so the session is not
finalized on that cycle, contradicting the claim that it closes as soon as
the elapsed time is at least record_seconds. -/
theorem c1_at_least_counterexample :
    (10 : ℚ) - 0 ≥ (cfg0.record_seconds : ℚ) ∧
    (monitorCycle cfg0 stRec zeroImg 10).1.is_recording = true ∧
    (monitorCycle cfg0 stRec zeroImg 10).2.1.countP isFinalized = 0 := by
  have hm : motionScan cfg0 zeroImg zeroImg = (false, []) := by decide
  refine ⟨by norm_num [cfg0], ?_, ?_⟩ <;>
    · simp only [monitorCycle, stRec, hm, Bool.false_and, ite_false, ite_true]
      norm_num [pyfmod, cfg0, isFinalized, List.countP_cons]

/-- C1 amended: an active session (with start time t0) is finalized on a cycle
at time now exactly when now - t0 strictly exceeds record_seconds — never on
a cycle with now - t0 ≤ record_seconds, where the session instead stays
active with the same start time — and this is independent of whether motion
is detected on the frame. -/
theorem c1_close_strictly_after (cfg : MonitorConfig) (st : LoopState)
    (fr : GrayImage) (now t0 : ℚ)
    (hrec : st.is_recording = true) (h0 : st.record_start_time = some t0) :
    (((monitorCycle cfg st fr now).1.is_recording = false ∧
      (monitorCycle cfg st fr now).2.1.countP isFinalized = 1)
        ↔ (cfg.record_seconds : ℚ) < now - t0) ∧
    (¬ (cfg.record_seconds : ℚ) < now - t0 →
      (monitorCycle cfg st fr now).1.is_recording = true ∧
      (monitorCycle cfg st fr now).1.record_start_time = some t0) := by
  by_cases hc : (cfg.record_seconds : ℚ) < now - t0 <;>
    by_cases hm : pyfmod now 30 < 1 <;>
    · simp [monitorCycle, hrec, h0, hc, hm, isFinalized, List.countP_cons]

/-- Witness for c1_close_strictly_after: at time 21/2 the elapsed time 21/2
strictly exceeds record_seconds = 10, and the session is finalized. -/
theorem c1_close_strictly_after_witness :
    (monitorCycle cfg0 stRec zeroImg (21/2)).1.is_recording = false ∧
    (monitorCycle cfg0 stRec zeroImg (21/2)).2.1.countP isFinalized = 1 := by
  exact (c1_close_strictly_after cfg0 stRec zeroImg (21/2) 0 rfl rfl).1.mpr
    (by norm_num [cfg0])

/-- C2: on a cycle where the monitor is idle and the contour scan detects
motion, exactly one recording session is created with start time equal to the
cycle time now, exactly one screenshot of the current frame is persisted,
exactly one notification carrying that screenshot is emitted, and the state
becomes recording; moreover no cycle that starts while a session is already
active emits any notification, so no further notification occurs before the
session has closed and a new motion trigger fires. -/
theorem c2_motion_trigger (cfg : MonitorConfig) (st : LoopState)
    (fr : GrayImage) (now : ℚ)
    (hidle : st.is_recording = false)
    (hm : (motionScan cfg st.gray_first_frame fr).1 = true) :
    (monitorCycle cfg st fr now).1.is_recording = true ∧
    (monitorCycle cfg st fr now).1.record_start_time = some now ∧
    (monitorCycle cfg st fr now).2.1.countP isStarted = 1 ∧
    (monitorCycle cfg st fr now).2.1.countP isScreenshot = 1 ∧
    (monitorCycle cfg st fr now).2.1.countP isAlert = 1 ∧
    (∀ (f : CFrame) (t : ℚ),
      Event.screenshotSaved f t ∈ (monitorCycle cfg st fr now).2.1 →
        f.src = fr ∧ f.overlay = false ∧ t = now) ∧
    (∀ (f : CFrame) (t : ℚ),
      Event.alertSent f t ∈ (monitorCycle cfg st fr now).2.1 →
        f.src = fr ∧ f.overlay = false ∧ t = now) ∧
    (∀ (st₂ : LoopState) (fr₂ : GrayImage) (now₂ : ℚ),
      st₂.is_recording = true →
        (monitorCycle cfg st₂ fr₂ now₂).2.1.countP isAlert = 0) := by
  have hnc : ¬ ((cfg.record_seconds : ℚ) < 0) := not_lt.mpr (Nat.cast_nonneg _)
  refine ⟨?_, ?_, ?_, ?_, ?_, ?_, ?_, ?_⟩
  case _ => by_cases hr : pyfmod now 30 < 1 <;>
    simp [monitorCycle, hidle, hm, hnc, sub_self, hr]
  case _ => by_cases hr : pyfmod now 30 < 1 <;>
    simp [monitorCycle, hidle, hm, hnc, sub_self, hr]
  case _ =>
    simp [monitorCycle, hidle, hm, hnc, sub_self, isStarted, List.countP_cons]
  case _ =>
    simp [monitorCycle, hidle, hm, hnc, sub_self, isScreenshot, List.countP_cons]
  case _ =>
    simp [monitorCycle, hidle, hm, hnc, sub_self, isAlert, List.countP_cons]
  case _ =>
    intro f t hmem
    simp [monitorCycle, hidle, hm, hnc, sub_self] at hmem
    rcases hmem with ⟨rfl, rfl⟩ | h <;> simp_all
  case _ =>
    intro f t hmem
    simp [monitorCycle, hidle, hm, hnc, sub_self] at hmem
    rcases hmem with ⟨rfl, rfl⟩ | h <;> simp_all
  case _ =>
    intro st₂ fr₂ now₂ hr₂
    rcases h2 : st₂.record_start_time with _ | t0
    · simp [monitorCycle, hr₂, h2, isAlert, List.countP_cons]
    · by_cases hc : (cfg.record_seconds : ℚ) < now₂ - t0 <;>
        simp [monitorCycle, hr₂, h2, hc, isAlert, List.countP_cons]

/-- Witness for c2_motion_trigger: the idle 3x3 monitor seeing the bright-spot
frame starts recording at time 0 and emits exactly one notification. -/
theorem c2_motion_trigger_witness :
    (monitorCycle cfg1 (initState zeroImg) spotImg 0).1.is_recording = true ∧
    (monitorCycle cfg1 (initState zeroImg) spotImg 0).1.record_start_time = some 0 ∧
    (monitorCycle cfg1 (initState zeroImg) spotImg 0).2.1.countP isAlert = 1 ∧
    (monitorCycle cfg1 (initState zeroImg) spotImg 0).2.1.countP isScreenshot = 1 := by
  have h := c2_motion_trigger cfg1 (initState zeroImg) spotImg 0 rfl (by decide)
  exact ⟨h.1, h.2.1, h.2.2.2.2.1, h.2.2.2.1⟩

/-- Balance of one cycle: sessions started during the cycle plus sessions open
before it equal sessions finalized during it plus sessions open after it. -/
theorem cycle_event_balance (cfg : MonitorConfig) (st : LoopState)
    (fr : GrayImage) (now : ℚ) :
    (monitorCycle cfg st fr now).2.1.countP isStarted
        + (if st.is_recording then 1 else 0)
      = (monitorCycle cfg st fr now).2.1.countP isFinalized
        + (if (monitorCycle cfg st fr now).1.is_recording then 1 else 0) := by
  have hnc : ¬ ((cfg.record_seconds : ℚ) < 0) := not_lt.mpr (Nat.cast_nonneg _)
  cases hr : st.is_recording
  · by_cases hm : (motionScan cfg st.gray_first_frame fr).1 = true <;>
      by_cases hp : pyfmod now 30 < 1 <;>
      simp [monitorCycle, hr, hm, hnc, sub_self, hp, isStarted, isFinalized,
        List.countP_cons, Bool.not_eq_true]
  · rcases h2 : st.record_start_time with _ | t0
    · by_cases hp : pyfmod now 30 < 1 <;>
        simp [monitorCycle, hr, h2, hp, isStarted, isFinalized, List.countP_cons]
    · by_cases hc : (cfg.record_seconds : ℚ) < now - t0 <;>
        by_cases hp : pyfmod now 30 < 1 <;>
        simp [monitorCycle, hr, h2, hc, hp, isStarted, isFinalized,
          List.countP_cons]

/-- Balance of a whole run, by induction over the input list from
cycle_event_balance. -/
theorem run_event_balance (cfg : MonitorConfig) :
    ∀ (inputs : List (GrayImage × ℚ)) (st : LoopState),
      (runCycles cfg st inputs).2.countP isStarted
          + (if st.is_recording then 1 else 0)
        = (runCycles cfg st inputs).2.countP isFinalized
          + (if (runCycles cfg st inputs).1.is_recording then 1 else 0) := by
  intro inputs
  induction inputs with
  | nil => intro st; simp [runCycles]
  | cons p rest ih =>
      intro st
      obtain ⟨fr, t⟩ := p
      have hb := cycle_event_balance cfg st fr t
      have hr := ih (monitorCycle cfg st fr t).1
      simp only [runCycles, List.countP_append]
      omega

/-- C3: while a session is active, a cycle emits no session creation, no
screenshot and no notification — whatever the motion pipeline finds — and
leaves the session start time unchanged (so the session is never extended);
and over any run that begins idle, the number of sessions started always
equals the number finalized plus at most one still-open session, so at most
one session is ever active. -/
theorem c3_at_most_one_session (cfg : MonitorConfig) :
    (∀ (st : LoopState) (fr : GrayImage) (now : ℚ), st.is_recording = true →
      (monitorCycle cfg st fr now).2.1.countP isStarted = 0 ∧
      (monitorCycle cfg st fr now).2.1.countP isScreenshot = 0 ∧
      (monitorCycle cfg st fr now).2.1.countP isAlert = 0 ∧
      (monitorCycle cfg st fr now).1.record_start_time = st.record_start_time ∧
      (∃ f : CFrame,
        (monitorCycle cfg st fr now).2.1 = [Event.frameWritten f] ∨
        (monitorCycle cfg st fr now).2.1
          = [Event.frameWritten f, Event.recordingFinalized])) ∧
    (∀ (st : LoopState) (inputs : List (GrayImage × ℚ)),
      st.is_recording = false →
        (runCycles cfg st inputs).2.countP isStarted
          = (runCycles cfg st inputs).2.countP isFinalized
            + (if (runCycles cfg st inputs).1.is_recording then 1 else 0) ∧
        (runCycles cfg st inputs).2.countP isStarted
          ≤ (runCycles cfg st inputs).2.countP isFinalized + 1) := by
  constructor
  · intro st fr now hr
    rcases h2 : st.record_start_time with _ | t0
    · by_cases hp : pyfmod now 30 < 1 <;>
        simp [monitorCycle, hr, h2, hp, isStarted, isScreenshot, isAlert,
          List.countP_cons]
    · by_cases hc : (cfg.record_seconds : ℚ) < now - t0 <;>
        by_cases hp : pyfmod now 30 < 1 <;>
        simp [monitorCycle, hr, h2, hc, hp, isStarted, isScreenshot, isAlert,
          List.countP_cons]
  · intro st inputs hidle
    have hb := run_event_balance cfg inputs st
    rw [hidle] at hb
    simp at hb
    constructor
    · omega
    · cases hf : (runCycles cfg st inputs).1.is_recording <;>
        simp [hf] at hb <;> omega

/-- Witness for c3_at_most_one_session: a motion frame seen mid-session emits
only the frame write, and a one-cycle run from idle balances its events. -/
theorem c3_at_most_one_session_witness :
    (monitorCycle cfg1
        { gray_first_frame := zeroImg, is_recording := true,
          record_start_time := some 0 } spotImg 1).2.1.countP isAlert = 0 ∧
    (runCycles cfg1 (initState zeroImg) [(spotImg, 0)]).2.countP isStarted
      = (runCycles cfg1 (initState zeroImg) [(spotImg, 0)]).2.countP isFinalized
        + (if (runCycles cfg1 (initState zeroImg) [(spotImg, 0)]).1.is_recording
            then 1 else 0) := by
  constructor
  · exact ((c3_at_most_one_session cfg1).1
      { gray_first_frame := zeroImg, is_recording := true,
        record_start_time := some 0 } spotImg 1 rfl).2.2.1
  · exact ((c3_at_most_one_session cfg1).2 (initState zeroImg) [(spotImg, 0)] rfl).1

/-- C7 counterexample: on a concrete motion-trigger cycle, the persisted
screenshot (written by line 158, before the putText of line 181 runs) does
not carry the timestamp overlay — exactly one screenshot event is emitted and
its frame has overlay = false — contradicting the claim that the overlay is
applied before every screenshot or recording write. -/
theorem c7_overlay_counterexample :
    (monitorCycle cfg1 (initState zeroImg) spotImg 0).2.1.countP
        (fun e => match e with
          | Event.screenshotSaved f _ => !f.overlay
          | _ => false) = 1 := by
  have hm : (motionScan cfg1 zeroImg spotImg).1 = true := by decide
  have hnc : ¬ ((cfg1.record_seconds : ℚ) < 0) := not_lt.mpr (Nat.cast_nonneg _)
  simp [monitorCycle, initState, hm, hnc, sub_self, List.countP_cons]

/-- C7 amended: the timestamp overlay of line 181 is applied only after the
screenshot and recording writes of the same cycle, so no frame carried by a
screenshotSaved or frameWritten event has the overlay; the overlaid frame is
only the end-of-iteration frame, which is discarded. -/
theorem c7_overlay_after_writes (cfg : MonitorConfig) (st : LoopState)
    (fr : GrayImage) (now : ℚ) :
    (monitorCycle cfg st fr now).2.1.countP
        (fun e => match e with
          | Event.screenshotSaved f _ => f.overlay
          | Event.frameWritten f => f.overlay
          | _ => false) = 0 ∧
    (monitorCycle cfg st fr now).2.2.overlay = true := by
  have hnc : ¬ ((cfg.record_seconds : ℚ) < 0) := not_lt.mpr (Nat.cast_nonneg _)
  constructor
  · cases hr : st.is_recording
    · by_cases hm : (motionScan cfg st.gray_first_frame fr).1 = true <;>
        simp [monitorCycle, hr, hm, hnc, sub_self, List.countP_cons,
          Bool.not_eq_true]
    · rcases h2 : st.record_start_time with _ | t0
      · simp [monitorCycle, hr, h2, List.countP_cons]
      · by_cases hc : (cfg.record_seconds : ℚ) < now - t0 <;>
          simp [monitorCycle, hr, h2, hc, List.countP_cons]
  · simp [monitorCycle]

/-- Witness for c7_overlay_after_writes on the concrete trigger cycle. -/
theorem c7_overlay_after_writes_witness :
    (monitorCycle cfg1 (initState zeroImg) spotImg 0).2.1.countP
        (fun e => match e with
          | Event.screenshotSaved f _ => f.overlay
          | Event.frameWritten f => f.overlay
          | _ => false) = 0 ∧
    (monitorCycle cfg1 (initState zeroImg) spotImg 0).2.2.overlay = true :=
  c7_overlay_after_writes cfg1 (initState zeroImg) spotImg 0

/-- Membership in the raster cell enumeration is exactly being in bounds. -/
theorem mem_allCells (w h : Nat) (p : Cell) :
    p ∈ allCells w h ↔ p.1 < w ∧ p.2 < h := by
  obtain ⟨x, y⟩ := p
  simp [allCells, List.mem_flatMap, List.mem_map, List.mem_range]
  constructor
  · rintro ⟨a, ha, b, hb, h1, h2⟩
    omega
  · rintro ⟨hx, hy⟩
    exact ⟨y, hy, x, hx, rfl, rfl⟩

/-- A binary image that vanishes on every in-bounds pixel has no foreground
cells. -/
theorem fgCells_eq_nil (w h : Nat) (img : GrayImage)
    (h0 : ∀ x y, x < w → y < h → img x y = 0) : fgCells w h img = [] := by
  rw [fgCells, List.filter_eq_nil_iff]
  intro p hp
  have hb := (mem_allCells w h p).mp hp
  simp [h0 p.1 p.2 hb.1 hb.2]

/-- A foldr of max over naturals vanishes exactly when every entry does. -/
theorem foldr_max_eq_zero_iff (l : List Nat) :
    l.foldr max 0 = 0 ↔ ∀ v ∈ l, v = 0 := by
  induction l with
  | nil => simp
  | cons a l ih => simp [Nat.max_eq_zero_iff, ih]

/-- Dilation of an image that vanishes on every in-bounds pixel vanishes
everywhere (the neighbourhood is restricted to in-bounds pixels). -/
theorem dilateOnce_zero (w h : Nat) (img : GrayImage)
    (h0 : ∀ x y, x < w → y < h → img x y = 0) :
    ∀ x y, dilateOnce w h img x y = 0 := by
  intro x y
  rw [dilateOnce, foldr_max_eq_zero_iff]
  intro v hv
  simp only [List.mem_map] at hv
  obtain ⟨p, hp, rfl⟩ := hv
  simp only [nbhd, List.mem_filter, Bool.and_eq_true, decide_eq_true_eq] at hp
  exact h0 p.1 p.2 hp.2.1 hp.2.2

/-- When no in-bounds pixel of the smoothed difference strictly exceeds the
sensitivity, the whole pipeline finds nothing: the thresholded mask is empty,
dilation keeps it empty, there are no contours, and the contour scan reports
no motion and no regions. -/
theorem motionScan_no_motion (cfg : MonitorConfig) (ref fr : GrayImage)
    (hlow : ∀ x y, x < cfg.w → y < cfg.h →
      Nat.dist (ref x y) (fr x y) ≤ cfg.sensitivity) :
    motionScan cfg ref fr = (false, []) := by
  have ht : ∀ x y, x < cfg.w → y < cfg.h →
      thresholdBinary cfg.sensitivity (absdiff ref fr) x y = 0 := by
    intro x y hx hy
    simp [thresholdBinary, absdiff, not_lt.mpr (hlow x y hx hy)]
  have hd1 := dilateOnce_zero cfg.w cfg.h _ ht
  have hd2 : ∀ x y, dilate2 cfg.w cfg.h
      (thresholdBinary cfg.sensitivity (absdiff ref fr)) x y = 0 := by
    intro x y
    exact dilateOnce_zero cfg.w cfg.h _ (fun a b _ _ => hd1 a b) x y
  have hc := fgCells_eq_nil cfg.w cfg.h _ (fun x y _ _ => hd2 x y)
  simp [motionScan, findContoursExt, hc, components, componentsAux, scanContours]

/-- An idle cycle without motion emits nothing and stays idle. -/
theorem idle_cycle_no_motion (cfg : MonitorConfig) (st : LoopState)
    (fr : GrayImage) (now : ℚ) (hidle : st.is_recording = false)
    (hm : (motionScan cfg st.gray_first_frame fr).1 = false) :
    (monitorCycle cfg st fr now).1.is_recording = false ∧
    (monitorCycle cfg st fr now).2.1 = [] := by
  by_cases hp : pyfmod now 30 < 1 <;> simp [monitorCycle, hidle, hm, hp]

/-- C4: starting idle, over any input sequence in which every frame differs
from the then-current reference frame by at most the sensitivity on every
in-bounds pixel, the monitor stays idle through every state of the run and
emits no event at all — in particular no session is created and no
notification is sent. -/
theorem c4_no_exceeding_diff_stays_idle (cfg : MonitorConfig) :
    ∀ (inputs : List (GrayImage × ℚ)) (st : LoopState),
      st.is_recording = false → lowDiffRun cfg st inputs →
      (runCycles cfg st inputs).1.is_recording = false ∧
      (runCycles cfg st inputs).2 = [] ∧
      (∀ s ∈ statesTrace cfg st inputs, s.is_recording = false) := by
  intro inputs
  induction inputs with
  | nil =>
      intro st hidle _
      refine ⟨hidle, rfl, ?_⟩
      intro s hs
      simp only [statesTrace, List.mem_singleton] at hs
      rw [hs]; exact hidle
  | cons p rest ih =>
      intro st hidle hlow
      obtain ⟨fr, t⟩ := p
      obtain ⟨h1, hrest⟩ := hlow
      have hm := motionScan_no_motion cfg st.gray_first_frame fr h1
      have hcyc := idle_cycle_no_motion cfg st fr t hidle (by rw [hm])
      have htail := ih (monitorCycle cfg st fr t).1 hcyc.1 hrest
      refine ⟨htail.1, ?_, ?_⟩
      · simp only [runCycles]
        rw [hcyc.2, htail.2.1]
        rfl
      · intro s hs
        simp only [statesTrace, List.mem_cons] at hs
        rcases hs with rfl | hs
        · exact hidle
        · exact htail.2.2 s hs

/-- Witness for c4_no_exceeding_diff_stays_idle: two identical black frames
produce no event and leave the monitor idle. -/
theorem c4_no_exceeding_diff_stays_idle_witness :
    (runCycles cfg1 (initState zeroImg) [(zeroImg, 5), (zeroImg, 10)]).1.is_recording
        = false ∧
    (runCycles cfg1 (initState zeroImg) [(zeroImg, 5), (zeroImg, 10)]).2 = [] := by
  have hm0 : motionScan cfg1 zeroImg zeroImg = (false, []) := by decide
  have hp5 : ¬ pyfmod (5 : ℚ) 30 < 1 := by norm_num [pyfmod]
  have hlow : lowDiffRun cfg1 (initState zeroImg) [(zeroImg, 5), (zeroImg, 10)] := by
    refine ⟨fun x y _ _ => by simp [initState, zeroImg], ?_, trivial⟩
    intro x y hx hy
    simp [monitorCycle, initState, hm0, hp5, zeroImg]
  have h := c4_no_exceeding_diff_stays_idle cfg1 [(zeroImg, 5), (zeroImg, 10)]
    (initState zeroImg) rfl hlow
  exact ⟨h.1, h.2.1⟩

set_option maxRecDepth 20000

/-- C5 counterexample: for the fixed dumbbell frame against the black
reference, raising the sensitivity from 20 to 50 raises the surviving
MotionRegion count from 1 to 2 — at sensitivity 20 the bright endpoints and
the dim bridge form a single region, at sensitivity 50 only the endpoints
survive thresholding and dilation leaves them as two separate regions — so
the region count is not antitone in the sensitivity. -/
theorem c5_region_count_counterexample :
    20 < 50 ∧
    (motionScan (cfgS 20) zeroImg dumbbellImg).2.length = 1 ∧
    (motionScan (cfgS 50) zeroImg dumbbellImg).2.length = 2 := by
  refine ⟨by norm_num, by decide, by decide⟩

/-- The binary threshold is pointwise antitone in the threshold value. -/
theorem thresholdBinary_antitone (s1 s2 : Nat) (img : GrayImage) (hs : s1 ≤ s2) :
    ∀ x y, thresholdBinary s2 img x y ≠ 0 → thresholdBinary s1 img x y ≠ 0 := by
  intro x y hne
  simp only [thresholdBinary] at hne ⊢
  split at hne
  case isTrue hlt => rw [if_pos (lt_of_le_of_lt hs hlt)]; norm_num
  case isFalse => simp at hne

/-- Dilation preserves pointwise containment of binary supports. -/
theorem dilateOnce_mono (w h : Nat) (f g : GrayImage)
    (hfg : ∀ x y, f x y ≠ 0 → g x y ≠ 0) :
    ∀ x y, dilateOnce w h f x y ≠ 0 → dilateOnce w h g x y ≠ 0 := by
  intro x y hne
  rw [dilateOnce, Ne, foldr_max_eq_zero_iff] at hne ⊢
  push_neg at hne ⊢
  obtain ⟨v, hv, hv0⟩ := hne
  simp only [List.mem_map] at hv
  obtain ⟨p, hp, rfl⟩ := hv
  exact ⟨g p.1 p.2, List.mem_map_of_mem _ hp, hfg p.1 p.2 hv0⟩

/-- C5 amended: raising the sensitivity shrinks the post-threshold,
post-dilation binary motion mask pointwise — every pixel set at the higher
sensitivity s2 is also set at the lower sensitivity s1 — but the number of
surviving MotionRegions is not antitone, because a single region can split
into several surviving regions (c5_region_count_counterexample). -/
theorem c5_mask_pointwise_antitone (w h s1 s2 : Nat) (ref fr : GrayImage)
    (x y : Nat) (hs : s1 ≤ s2)
    (hx : dilate2 w h (thresholdBinary s2 (absdiff ref fr)) x y ≠ 0) :
    dilate2 w h (thresholdBinary s1 (absdiff ref fr)) x y ≠ 0 := by
  have h1 := thresholdBinary_antitone s1 s2 (absdiff ref fr) hs
  have h2 := dilateOnce_mono w h _ _ h1
  have h3 := dilateOnce_mono w h _ _ h2
  exact h3 x y hx

/-- Witness for c5_mask_pointwise_antitone at the dumbbell input: the pixel
(0, 0) is in the sensitivity-50 mask, hence also in the sensitivity-20
mask. -/
theorem c5_mask_pointwise_antitone_witness :
    dilate2 11 5 (thresholdBinary 20 (absdiff zeroImg dumbbellImg)) 0 0 ≠ 0 := by
  exact c5_mask_pointwise_antitone 11 5 20 50 zeroImg dumbbellImg 0 0
    (by norm_num) (by decide)

/-- Modelled from the claim text of C9: a contour would be kept exactly when
its bounding-rectangle area is at least min_area.  The source filter of line
141 instead keeps a contour exactly when its contour area (cv2.contourArea)
is at least min_area; this predicate states that the two filters agree on
every contour of a given list. -/
def keptIffBRectArea (minArea : Nat) (cs : List (List ZPt)) : Prop :=
  ∀ c ∈ cs,
    (¬ (contourAreaD c < 2 * minArea) ↔ ¬ (brArea c < (minArea : ℤ)))

/-- C9 counterexample: for the dilated 5x5 blob, the single contour has
contour area 16 but bounding-rectangle area 25, so with min_area = 20 the
source discards it while the claimed bounding-rectangle filter would keep
it: the filters disagree. -/
theorem c9_bounding_rect_counterexample :
    ¬ keptIffBRectArea cfg9.min_area
        (findContoursExt cfg9.w cfg9.h
          (dilate2 cfg9.w cfg9.h
            (thresholdBinary cfg9.sensitivity (absdiff zeroImg spot5Img)))) := by
  unfold keptIffBRectArea
  decide

/-- Unfolding of the contour-scan fold: the accumulated flag is an any over
the kept contours and the accumulated rectangles are the bounding rectangles
of the kept contours, in order. -/
theorem scanContours_eq (minArea : Nat) :
    ∀ (cs : List (List ZPt)) (b : Bool) (acc : List Rect),
      cs.foldl
          (fun acc c =>
            if contourAreaD c < 2 * minArea then acc
            else (true, acc.2 ++ [boundingRect c])) (b, acc)
        = (b || cs.any (fun c => !decide (contourAreaD c < 2 * minArea)),
           acc ++ (cs.filter
              (fun c => !decide (contourAreaD c < 2 * minArea))).map boundingRect) := by
  intro cs
  induction cs with
  | nil => intro b acc; simp
  | cons c cs ih =>
      intro b acc
      by_cases hc : contourAreaD c < 2 * minArea <;>
        simp [List.foldl_cons, hc, ih, List.filter_cons]

/-- C9 amended: a contour is discarded exactly when its contour area (the
area cv2.contourArea computes for the traced boundary, not the area of its
bounding rectangle) is below min_area; every kept contour sets
motion_detected — the flag is an any over kept contours — and contributes the
MotionRegion given by its bounding rectangle. -/
theorem c9_contour_area_filter (cfg : MonitorConfig) (ref fr : GrayImage) :
    motionScan cfg ref fr
      = ((findContoursExt cfg.w cfg.h (dilate2 cfg.w cfg.h
            (thresholdBinary cfg.sensitivity (absdiff ref fr)))).any
            (fun c => !decide (contourAreaD c < 2 * cfg.min_area)),
         ((findContoursExt cfg.w cfg.h (dilate2 cfg.w cfg.h
            (thresholdBinary cfg.sensitivity (absdiff ref fr)))).filter
            (fun c => !decide (contourAreaD c < 2 * cfg.min_area))).map
            boundingRect) := by
  rw [motionScan, scanContours, scanContours_eq]
  simp
